import Mathlib

/-
Shallow embedding of the SF vector library (src/SF/include/Vector2.h and
src/SF/include/Vector3.h).

The C++ source works over IEEE-754 single-precision floats.  In this
development float arithmetic is idealized as exact arithmetic: the
components of the vectors are modelled as rationals (ℚ), on which every
arithmetic operator of the source is closed and decidable, and the
functions whose source calls the C math library (sqrt, pow, atan2) are
modelled over the reals (ℝ), where those functions exist exactly.
FLT_EPSILON, the machine epsilon of the float type, is the exact rational
2 ^ (-23).  The source's M_PI macro is the double literal closest to π and
is modelled as the real number π.
-/

namespace SF

/-- FLT_EPSILON of IEEE-754 single precision, 2 ^ (-23), used by the
epsilon comparisons of operator== and operator!= and by the zero-length
guard of Vector2::normalized. -/
def FLT_EPSILON : ℚ := 1 / 8388608

/-- A two-dimensional vector; source class SF::Vector2 with private float
fields x_ and y_ (src/SF/include/Vector2.h). -/
structure Vector2 where
  x : ℚ
  y : ℚ
deriving DecidableEq

/-- Default constructor Vector2(): initializes to (0.0, 0.0). -/
def Vector2.zero : Vector2 := ⟨0, 0⟩

/-- Vector2::operator-() (unary): returns Vector2(-x_, -y_). -/
def Vector2.neg (v : Vector2) : Vector2 := ⟨-v.x, -v.y⟩

/-- Vector2::operator*(const Vector2&): dot product x_*v.x + y_*v.y. -/
def Vector2.dot (a b : Vector2) : ℚ := a.x * b.x + a.y * b.y

/-- Vector2::operator*(float s): Vector2(x_*s, y_*s). -/
def Vector2.smul (v : Vector2) (s : ℚ) : Vector2 := ⟨v.x * s, v.y * s⟩

/-- Vector2::operator/(float s): computes invS = 1.0f/s once, then
returns Vector2(x_*invS, y_*invS).  No check of s against zero. -/
def Vector2.sdiv (v : Vector2) (s : ℚ) : Vector2 :=
  let invS := 1 / s
  ⟨v.x * invS, v.y * invS⟩

/-- Vector2::operator+(const Vector2&): componentwise sum. -/
def Vector2.add (a b : Vector2) : Vector2 := ⟨a.x + b.x, a.y + b.y⟩

/-- Vector2::operator-(const Vector2&): componentwise difference. -/
def Vector2.sub (a b : Vector2) : Vector2 := ⟨a.x - b.x, a.y - b.y⟩

/-- Vector2::operator==: fabs(x_-v.x) < FLT_EPSILON and
fabs(y_-v.y) < FLT_EPSILON. -/
def Vector2.eq (a b : Vector2) : Prop :=
  |a.x - b.x| < FLT_EPSILON ∧ |a.y - b.y| < FLT_EPSILON

instance (a b : Vector2) : Decidable (a.eq b) := by
  unfold Vector2.eq; infer_instance

/-- Vector2::operator!=: fabs(x_-v.x) > FLT_EPSILON and
fabs(y_-v.y) > FLT_EPSILON (note: both conjuncts, like operator==). -/
def Vector2.neq (a b : Vector2) : Prop :=
  |a.x - b.x| > FLT_EPSILON ∧ |a.y - b.y| > FLT_EPSILON

instance (a b : Vector2) : Decidable (a.neq b) := by
  unfold Vector2.neq; infer_instance

/-- Vector2::operator*=(float s): x_ *= s; y_ *= s; return *this.
Modelled in state-passing style: the result is the mutated receiver,
which the source returns by reference. -/
def Vector2.mulAssign (v : Vector2) (s : ℚ) : Vector2 :=
  let v1 : Vector2 := { v with x := v.x * s }
  let v2 : Vector2 := { v1 with y := v1.y * s }
  v2

/-- Vector2::operator/=(float s): invS = 1.0f/s; x_ *= invS; y_ *= invS;
return *this. -/
def Vector2.divAssign (v : Vector2) (s : ℚ) : Vector2 :=
  let invS := 1 / s
  let v1 : Vector2 := { v with x := v.x * invS }
  let v2 : Vector2 := { v1 with y := v1.y * invS }
  v2

/-- Vector2::operator+=(const Vector2&): x_ += o.x; y_ += o.y;
return *this. -/
def Vector2.addAssign (v o : Vector2) : Vector2 :=
  let v1 : Vector2 := { v with x := v.x + o.x }
  let v2 : Vector2 := { v1 with y := v1.y + o.y }
  v2

/-- Vector2::operator-=(const Vector2&): x_ -= o.x; y_ -= o.y;
return *this. -/
def Vector2.subAssign (v o : Vector2) : Vector2 :=
  let v1 : Vector2 := { v with x := v.x - o.x }
  let v2 : Vector2 := { v1 with y := v1.y - o.y }
  v2

/-- Vector2::GetLengthSquared(): x_*x_ + y_*y_. -/
def Vector2.GetLengthSquared (v : Vector2) : ℚ := v.x * v.x + v.y * v.y

/-- Vector2::LeftNormalVector(): Vector2(-y(), x()). -/
def Vector2.LeftNormalVector (v : Vector2) : Vector2 := ⟨-v.y, v.x⟩

/-- Free function SF::absSq(const Vector2&): vector * vector
(the dot product of the vector with itself). -/
def Vector2.absSq (v : Vector2) : ℚ := v.dot v

/-- Free function SF::det(const Vector2&, const Vector2&):
v1.x()*v2.y() - v1.y()*v2.x(). -/
def Vector2.det (a b : Vector2) : ℚ := a.x * b.y - a.y * b.x

/-- A three-dimensional vector; source class SF::Vector3 stores a private
array float val_[3]; the fields x, y, z here are val_[0], val_[1],
val_[2] (src/SF/include/Vector3.h). -/
structure Vector3 where
  x : ℚ
  y : ℚ
  z : ℚ
deriving DecidableEq

/-- Default constructor Vector3(): initializes val_ to (0, 0, 0). -/
def Vector3.zero : Vector3 := ⟨0, 0, 0⟩

/-- Vector3::operator-() (unary): Vector3(-val_[0], -val_[1], -val_[2]). -/
def Vector3.neg (v : Vector3) : Vector3 := ⟨-v.x, -v.y, -v.z⟩

/-- Vector3::operator*(const Vector3&): dot product
val_[0]*v[0] + val_[1]*v[1] + val_[2]*v[2]. -/
def Vector3.dot (a b : Vector3) : ℚ := a.x * b.x + a.y * b.y + a.z * b.z

/-- Vector3::operator*(float scalar): componentwise scale. -/
def Vector3.smul (v : Vector3) (s : ℚ) : Vector3 := ⟨v.x * s, v.y * s, v.z * s⟩

/-- Vector3::operator/(float scalar): invScalar = 1.0f/scalar once, then
Vector3(val_[0]*invScalar, val_[1]*invScalar, val_[2]*invScalar).
No check of scalar against zero. -/
def Vector3.sdiv (v : Vector3) (s : ℚ) : Vector3 :=
  let invScalar := 1 / s
  ⟨v.x * invScalar, v.y * invScalar, v.z * invScalar⟩

/-- Vector3::operator+(const Vector3&): componentwise sum. -/
def Vector3.add (a b : Vector3) : Vector3 := ⟨a.x + b.x, a.y + b.y, a.z + b.z⟩

/-- Vector3::operator-(const Vector3&): componentwise difference. -/
def Vector3.sub (a b : Vector3) : Vector3 := ⟨a.x - b.x, a.y - b.y, a.z - b.z⟩

/-- Vector3::operator==: all three of fabs(val_[i]-v[i]) < FLT_EPSILON. -/
def Vector3.eq (a b : Vector3) : Prop :=
  |a.x - b.x| < FLT_EPSILON ∧ |a.y - b.y| < FLT_EPSILON ∧ |a.z - b.z| < FLT_EPSILON

instance (a b : Vector3) : Decidable (a.eq b) := by
  unfold Vector3.eq; infer_instance

/-- Vector3::operator!=: all three of fabs(val_[i]-v[i]) > FLT_EPSILON. -/
def Vector3.neq (a b : Vector3) : Prop :=
  |a.x - b.x| > FLT_EPSILON ∧ |a.y - b.y| > FLT_EPSILON ∧ |a.z - b.z| > FLT_EPSILON

instance (a b : Vector3) : Decidable (a.neq b) := by
  unfold Vector3.neq; infer_instance

/-- Vector3::operator*=(float scalar): val_[0] *= scalar; val_[1] *= scalar;
val_[2] *= scalar; return *this. -/
def Vector3.mulAssign (v : Vector3) (s : ℚ) : Vector3 :=
  let v1 : Vector3 := { v with x := v.x * s }
  let v2 : Vector3 := { v1 with y := v1.y * s }
  let v3 : Vector3 := { v2 with z := v2.z * s }
  v3

/-- Vector3::operator/=(float scalar): invScalar = 1.0f/scalar; then the
three components are multiplied by invScalar in place; return *this. -/
def Vector3.divAssign (v : Vector3) (s : ℚ) : Vector3 :=
  let invScalar := 1 / s
  let v1 : Vector3 := { v with x := v.x * invScalar }
  let v2 : Vector3 := { v1 with y := v1.y * invScalar }
  let v3 : Vector3 := { v2 with z := v2.z * invScalar }
  v3

/-- Vector3::operator+=(const Vector3&): componentwise in-place sum;
return *this. -/
def Vector3.addAssign (v o : Vector3) : Vector3 :=
  let v1 : Vector3 := { v with x := v.x + o.x }
  let v2 : Vector3 := { v1 with y := v1.y + o.y }
  let v3 : Vector3 := { v2 with z := v2.z + o.z }
  v3

/-- Vector3::operator-=(const Vector3&): componentwise in-place
difference; return *this. -/
def Vector3.subAssign (v o : Vector3) : Vector3 :=
  let v1 : Vector3 := { v with x := v.x - o.x }
  let v2 : Vector3 := { v1 with y := v1.y - o.y }
  let v3 : Vector3 := { v2 with z := v2.z - o.z }
  v3

/-- Free function SF::cross(const Vector3&, const Vector3&): the standard
3D cross product, componentwise as written in the source. -/
def Vector3.cross (a b : Vector3) : Vector3 :=
  ⟨a.y * b.z - a.z * b.y, a.z * b.x - a.x * b.z, a.x * b.y - a.y * b.x⟩

/-- Free function SF::absSq(const Vector3&): vector * vector. -/
def Vector3.absSq (v : Vector3) : ℚ := v.dot v

/-- A pair of real numbers: the value returned by the real-number
idealization of the float-valued Vector2 operations that divide by a
square root (Vector2::normalized). -/
structure RVec2 where
  x : ℝ
  y : ℝ

/-- The injection of a (rational-modelled) Vector2 into the real plane. -/
def Vector2.toReal (v : Vector2) : RVec2 := ⟨(v.x : ℝ), (v.y : ℝ)⟩

/-- Modelled from the C math library (not part of this repository):
atan2(y, x), the polar angle of the point (x, y) in (-π, π]. -/
noncomputable def atan2 (y x : ℝ) : ℝ :=
  if 0 < x then Real.arctan (y / x)
  else if x < 0 then
    (if 0 ≤ y then Real.arctan (y / x) + Real.pi
     else Real.arctan (y / x) - Real.pi)
  else if 0 < y then Real.pi / 2
  else if y < 0 then -(Real.pi / 2)
  else 0

/-- Free function SF::getLength(const Vector2&):
sqrt(pow(x, 2) + pow(y, 2)). -/
noncomputable def Vector2.getLength (v : Vector2) : ℝ :=
  Real.sqrt ((v.x : ℝ) ^ 2 + (v.y : ℝ) ^ 2)

/-- Free function SF::abs(const Vector2&): std::sqrt(vector * vector). -/
noncomputable def Vector2.abs (v : Vector2) : ℝ :=
  Real.sqrt ((v.dot v : ℚ) : ℝ)

/-- Vector2::normalized(): length = sqrt(pow(x_, 2) + pow(y_, 2)); if
length < FLT_EPSILON the receiver is returned unchanged, otherwise
Vector2(x_ / length, y_ / length). -/
noncomputable def Vector2.normalized (v : Vector2) : RVec2 :=
  let length := Real.sqrt ((v.x : ℝ) ^ 2 + (v.y : ℝ) ^ 2)
  if length < (FLT_EPSILON : ℝ) then v.toReal
  else ⟨(v.x : ℝ) / length, (v.y : ℝ) / length⟩

/-- Vector2::polarAngle(): atan2(y(), x()). -/
noncomputable def Vector2.polarAngle (v : Vector2) : ℝ :=
  atan2 (v.y : ℝ) (v.x : ℝ)

/-- Vector2::angleTo(Vector2 *other): diffAngle = other->polarAngle() -
polarAngle(); then diffAngle -= M_PI when diffAngle > M_PI, and
diffAngle += 2 * M_PI when diffAngle <= -M_PI. -/
noncomputable def Vector2.angleTo (t o : Vector2) : ℝ :=
  let angleThis := t.polarAngle
  let angleOther := o.polarAngle
  let diffAngle := angleOther - angleThis
  if diffAngle > Real.pi then diffAngle - Real.pi
  else if diffAngle ≤ -Real.pi then diffAngle + 2 * Real.pi
  else diffAngle

/-- C1: for both Vector2 and Vector3, operator!= holds exactly when every
component differs from the corresponding component of the argument by
strictly more than FLT_EPSILON; hence operator!= is not the logical
negation of operator==, and Vector3(2,3,4) == Vector3(2,3,4) holds while
Vector3(2,3,4) == Vector3(2,3,5) and Vector3(2,3,4) != Vector3(2,3,5)
both fail. -/
theorem neq_all_components_policy :
    (∀ a b : Vector2,
      a.neq b ↔ (|a.x - b.x| > FLT_EPSILON ∧ |a.y - b.y| > FLT_EPSILON)) ∧
    (∀ a b : Vector3,
      a.neq b ↔ (|a.x - b.x| > FLT_EPSILON ∧ |a.y - b.y| > FLT_EPSILON ∧
        |a.z - b.z| > FLT_EPSILON)) ∧
    ¬ (∀ a b : Vector2, a.neq b ↔ ¬ a.eq b) ∧
    ¬ (∀ a b : Vector3, a.neq b ↔ ¬ a.eq b) ∧
    (Vector3.mk 2 3 4).eq (Vector3.mk 2 3 4) ∧
    ¬ (Vector3.mk 2 3 4).eq (Vector3.mk 2 3 5) ∧
    ¬ (Vector3.mk 2 3 4).neq (Vector3.mk 2 3 5) := by
  refine ⟨fun a b => Iff.rfl, fun a b => Iff.rfl, fun h => ?_, fun h => ?_,
    ?_, ?_, ?_⟩
  · exact absurd ((h ⟨0, 0⟩ ⟨0, 1⟩).mpr
      (by norm_num [Vector2.eq, FLT_EPSILON]))
      (by norm_num [Vector2.neq, FLT_EPSILON])
  · exact absurd ((h ⟨0, 0, 0⟩ ⟨0, 0, 1⟩).mpr
      (by norm_num [Vector3.eq, FLT_EPSILON]))
      (by norm_num [Vector3.neq, FLT_EPSILON])
  · norm_num [Vector3.eq, FLT_EPSILON]
  · norm_num [Vector3.eq, FLT_EPSILON]
  · norm_num [Vector3.neq, FLT_EPSILON]

/-- C1 witness: the characterization of operator!= applied at the concrete
pair Vector2(0,0), Vector2(3,4), whose components both differ by more
than FLT_EPSILON. -/
theorem neq_all_components_policy_witness :
    (Vector2.mk 0 0).neq (Vector2.mk 3 4) :=
  (neq_all_components_policy.1 ⟨0, 0⟩ ⟨3, 4⟩).mpr
    (by norm_num [FLT_EPSILON])

/-- C4: for every Vector2 and Vector3 v, the sum of v with its unary
negation compares equal to the zero vector under the epsilon-based
operator==. -/
theorem add_neg_eq_zero :
    (∀ v : Vector2, (v.add v.neg).eq Vector2.zero) ∧
    (∀ v : Vector3, (v.add v.neg).eq Vector3.zero) := by
  constructor
  · intro v
    simp [Vector2.add, Vector2.neg, Vector2.eq, Vector2.zero, FLT_EPSILON]
  · intro v
    simp [Vector3.add, Vector3.neg, Vector3.eq, Vector3.zero, FLT_EPSILON]

/-- C4 witness: the property applied at the concrete vectors
Vector2(3,4) and Vector3(1,2,3). -/
theorem add_neg_eq_zero_witness :
    ((Vector2.mk 3 4).add (Vector2.mk 3 4).neg).eq Vector2.zero ∧
    ((Vector3.mk 1 2 3).add (Vector3.mk 1 2 3).neg).eq Vector3.zero :=
  ⟨add_neg_eq_zero.1 ⟨3, 4⟩, add_neg_eq_zero.2 ⟨1, 2, 3⟩⟩

/-- C5: cross(v, v) is the zero vector for every Vector3 v; cross(a, b)
equals the negation of cross(b, a); and cross(Vector3(1,0,0),
Vector3(0,1,0)) = Vector3(0,0,1). -/
theorem cross_properties :
    (∀ v : Vector3, Vector3.cross v v = Vector3.zero) ∧
    (∀ a b : Vector3, Vector3.cross a b = (Vector3.cross b a).neg) ∧
    Vector3.cross ⟨1, 0, 0⟩ ⟨0, 1, 0⟩ = Vector3.mk 0 0 1 := by
  refine ⟨fun v => ?_, fun a b => ?_, ?_⟩
  · simp only [Vector3.cross, Vector3.zero, Vector3.mk.injEq]
    refine ⟨by ring, by ring, by ring⟩
  · simp only [Vector3.cross, Vector3.neg, Vector3.mk.injEq]
    refine ⟨by ring, by ring, by ring⟩
  · simp only [Vector3.cross, Vector3.mk.injEq]
    norm_num

/-- C5 witness: the antisymmetry of cross applied at the concrete vectors
Vector3(1,2,3) and Vector3(4,5,6). -/
theorem cross_properties_witness :
    Vector3.cross ⟨1, 2, 3⟩ ⟨4, 5, 6⟩ =
      (Vector3.cross ⟨4, 5, 6⟩ ⟨1, 2, 3⟩).neg :=
  cross_properties.2.1 ⟨1, 2, 3⟩ ⟨4, 5, 6⟩

/-- C6: the determinant of a Vector2 with itself vanishes:
det(v, v) = 0 for every v. -/
theorem det_self_eq_zero : ∀ v : Vector2, Vector2.det v v = 0 := by
  intro v
  unfold Vector2.det
  ring

/-- C6 witness: the self-determinant property applied at Vector2(5,7). -/
theorem det_self_eq_zero_witness :
    Vector2.det (Vector2.mk 5 7) (Vector2.mk 5 7) = 0 :=
  det_self_eq_zero ⟨5, 7⟩

/-- C7: for both Vector2 and Vector3, the dot product of a vector with
itself equals absSq of that vector exactly, absSq being defined as that
dot product. -/
theorem dot_self_eq_absSq :
    (∀ v : Vector2, v.dot v = v.absSq) ∧
    (∀ v : Vector3, v.dot v = v.absSq) :=
  ⟨fun _ => rfl, fun _ => rfl⟩

/-- C7 witness: the property applied at Vector2(3,4) and
Vector3(1,2,3). -/
theorem dot_self_eq_absSq_witness :
    (Vector2.mk 3 4).dot (Vector2.mk 3 4) = (Vector2.mk 3 4).absSq ∧
    (Vector3.mk 1 2 3).dot (Vector3.mk 1 2 3) = (Vector3.mk 1 2 3).absSq :=
  ⟨dot_self_eq_absSq.1 ⟨3, 4⟩, dot_self_eq_absSq.2 ⟨1, 2, 3⟩⟩

/-- C8: scalar division computes the reciprocal 1/s once and multiplies
each component by it, for both Vector2 and Vector3; the equations hold
for every scalar s, including s = 0, so no zero check is performed and
no error is possible. -/
theorem sdiv_reciprocal :
    (∀ (v : Vector2) (s : ℚ),
      v.sdiv s = Vector2.mk (v.x * (1 / s)) (v.y * (1 / s))) ∧
    (∀ (v : Vector3) (s : ℚ),
      v.sdiv s = Vector3.mk (v.x * (1 / s)) (v.y * (1 / s)) (v.z * (1 / s))) :=
  ⟨fun _ _ => rfl, fun _ _ => rfl⟩

/-- C8 witness: the division equations applied at scalar 0 (exercising
the absence of a zero check) and at Vector3(1,2,3) with scalar 2. -/
theorem sdiv_reciprocal_witness :
    (Vector2.mk 1 2).sdiv 0 =
      Vector2.mk (1 * (1 / 0 : ℚ)) (2 * (1 / 0 : ℚ)) ∧
    (Vector3.mk 1 2 3).sdiv 2 =
      Vector3.mk (1 * (1 / 2 : ℚ)) (2 * (1 / 2 : ℚ)) (3 * (1 / 2 : ℚ)) :=
  ⟨sdiv_reciprocal.1 ⟨1, 2⟩ 0, sdiv_reciprocal.2 ⟨1, 2, 3⟩ 2⟩

/-- C10: every in-place operator agrees with its pure counterpart: for
both Vector2 and Vector3, the mutated receiver after *=, /=, += or -=
(which the source returns by reference, modelled here as the returned
post-state) equals the result of the corresponding pure operator on the
prior value. -/
theorem assign_ops_agree_with_pure :
    (∀ (v : Vector2) (s : ℚ), v.mulAssign s = v.smul s) ∧
    (∀ (v : Vector2) (s : ℚ), v.divAssign s = v.sdiv s) ∧
    (∀ v o : Vector2, v.addAssign o = v.add o) ∧
    (∀ v o : Vector2, v.subAssign o = v.sub o) ∧
    (∀ (v : Vector3) (s : ℚ), v.mulAssign s = v.smul s) ∧
    (∀ (v : Vector3) (s : ℚ), v.divAssign s = v.sdiv s) ∧
    (∀ v o : Vector3, v.addAssign o = v.add o) ∧
    (∀ v o : Vector3, v.subAssign o = v.sub o) :=
  ⟨fun _ _ => rfl, fun _ _ => rfl, fun _ _ => rfl, fun _ _ => rfl,
   fun _ _ => rfl, fun _ _ => rfl, fun _ _ => rfl, fun _ _ => rfl⟩

/-- C10 witness: the agreement applied at Vector2(1,2) with scalar 3 and
at Vector3(1,2,3) with Vector3(4,5,6). -/
theorem assign_ops_agree_with_pure_witness :
    (Vector2.mk 1 2).mulAssign 3 = (Vector2.mk 1 2).smul 3 ∧
    (Vector3.mk 1 2 3).addAssign (Vector3.mk 4 5 6) =
      (Vector3.mk 1 2 3).add (Vector3.mk 4 5 6) :=
  ⟨assign_ops_agree_with_pure.1 ⟨1, 2⟩ 3,
   assign_ops_agree_with_pure.2.2.2.2.2.2.1 ⟨1, 2, 3⟩ ⟨4, 5, 6⟩⟩

/-- C2: Vector2::normalized() returns the receiver unchanged whenever the
Euclidean length sqrt(x^2 + y^2) is below FLT_EPSILON, and otherwise
returns (x/length, y/length), whose squared components sum to 1 (a unit
vector in the same direction). -/
theorem normalized_spec (v : Vector2) :
    (v.getLength < (FLT_EPSILON : ℝ) → v.normalized = v.toReal) ∧
    (¬ v.getLength < (FLT_EPSILON : ℝ) →
      v.normalized =
        RVec2.mk ((v.x : ℝ) / v.getLength) ((v.y : ℝ) / v.getLength) ∧
      v.normalized.x ^ 2 + v.normalized.y ^ 2 = 1) := by
  have hnn : (0 : ℝ) ≤ (v.x : ℝ) ^ 2 + (v.y : ℝ) ^ 2 := by positivity
  have hgl : v.getLength = Real.sqrt ((v.x : ℝ) ^ 2 + (v.y : ℝ) ^ 2) := rfl
  constructor
  · intro h
    simp only [Vector2.normalized]
    rw [← hgl, if_pos h]
  · intro h
    have he : v.normalized =
        RVec2.mk ((v.x : ℝ) / v.getLength) ((v.y : ℝ) / v.getLength) := by
      simp only [Vector2.normalized]
      rw [← hgl, if_neg h]
    have hpos : 0 < v.getLength := by
      refine lt_of_lt_of_le ?_ (not_lt.mp h)
      norm_num [FLT_EPSILON]
    have hL2 : v.getLength ^ 2 = (v.x : ℝ) ^ 2 + (v.y : ℝ) ^ 2 := by
      rw [hgl]
      exact Real.sq_sqrt hnn
    refine ⟨he, ?_⟩
    rw [he]
    show ((v.x : ℝ) / v.getLength) ^ 2 + ((v.y : ℝ) / v.getLength) ^ 2 = 1
    rw [div_pow, div_pow, div_add_div_same, ← hL2]
    exact div_self (pow_ne_zero 2 (ne_of_gt hpos))

/-- C2 witness: Vector2(0,0) has length 0 < FLT_EPSILON and is returned
unchanged; Vector2(3,4) has length 5 and normalizes to (3/5, 4/5). -/
theorem normalized_spec_witness :
    (Vector2.mk 0 0).normalized = (Vector2.mk 0 0).toReal ∧
    (Vector2.mk 3 4).normalized = RVec2.mk (3 / 5) (4 / 5) := by
  have h0 : (Vector2.mk 0 0).getLength < (FLT_EPSILON : ℝ) := by
    show Real.sqrt _ < _
    norm_num [FLT_EPSILON]
  have h5 : (Vector2.mk 3 4).getLength = 5 := by
    show Real.sqrt (((3 : ℚ) : ℝ) ^ 2 + ((4 : ℚ) : ℝ) ^ 2) = 5
    rw [show ((3 : ℚ) : ℝ) ^ 2 + ((4 : ℚ) : ℝ) ^ 2 = 5 ^ 2 by
      push_cast; norm_num]
    exact Real.sqrt_sq (by norm_num)
  refine ⟨(normalized_spec _).1 h0, ?_⟩
  have h := ((normalized_spec (Vector2.mk 3 4)).2
    (by rw [h5]; norm_num [FLT_EPSILON])).1
  rw [h5] at h
  rw [h]
  simp only [RVec2.mk.injEq]
  norm_num

/-- C3: for every receiver t and argument o, angleTo computes the
difference atan2(o.y, o.x) - atan2(t.y, t.x), subtracts π when the
difference exceeds π, adds 2π when it is at most -π, and returns it
as-is otherwise. -/
theorem angleTo_spec :
    ∀ t o : Vector2,
      t.angleTo o =
        if atan2 (o.y : ℝ) (o.x : ℝ) - atan2 (t.y : ℝ) (t.x : ℝ) > Real.pi then
          atan2 (o.y : ℝ) (o.x : ℝ) - atan2 (t.y : ℝ) (t.x : ℝ) - Real.pi
        else if atan2 (o.y : ℝ) (o.x : ℝ) - atan2 (t.y : ℝ) (t.x : ℝ) ≤
            -Real.pi then
          atan2 (o.y : ℝ) (o.x : ℝ) - atan2 (t.y : ℝ) (t.x : ℝ) + 2 * Real.pi
        else
          atan2 (o.y : ℝ) (o.x : ℝ) - atan2 (t.y : ℝ) (t.x : ℝ) :=
  fun _ _ => rfl

/-- C3 witness: the angleTo characterization applied at the concrete
vectors Vector2(1,0) and Vector2(0,1), where the atan2 difference is
π/2 - 0 and no wrap branch fires, so the result is π/2. -/
theorem angleTo_spec_witness :
    (Vector2.mk 1 0).angleTo (Vector2.mk 0 1) = Real.pi / 2 := by
  have h := angleTo_spec ⟨1, 0⟩ ⟨0, 1⟩
  have ho : atan2 (((Vector2.mk 0 1).y : ℚ) : ℝ) (((Vector2.mk 0 1).x : ℚ) : ℝ)
      = Real.pi / 2 := by
    show atan2 (((1 : ℚ) : ℝ)) (((0 : ℚ) : ℝ)) = Real.pi / 2
    norm_num [atan2]
  have ht : atan2 (((Vector2.mk 1 0).y : ℚ) : ℝ) (((Vector2.mk 1 0).x : ℚ) : ℝ)
      = 0 := by
    show atan2 (((0 : ℚ) : ℝ)) (((1 : ℚ) : ℝ)) = 0
    norm_num [atan2]
  rw [ho, ht] at h
  rw [h, if_neg (by nlinarith [Real.pi_pos]), if_neg (by nlinarith [Real.pi_pos])]
  ring

/-- C9: the two independent Vector2 length implementations agree: the
free function abs (square root of the dot product of the vector with
itself) equals the free function getLength (square root of the sum of
the squared components). -/
theorem abs_eq_getLength : ∀ v : Vector2, v.abs = v.getLength := by
  intro v
  unfold Vector2.abs Vector2.getLength Vector2.dot
  congr 1
  push_cast
  ring

/-- C9 witness: the agreement of abs and getLength applied at
Vector2(3,4). -/
theorem abs_eq_getLength_witness :
    (Vector2.mk 3 4).abs = (Vector2.mk 3 4).getLength :=
  abs_eq_getLength ⟨3, 4⟩

end SF
